import Mathlib

/-!
Shallow embedding of `src/app.py` (AP Business Tools Flask backend).

JSON/Python values are modelled by `JsonVal` (numbers over ℚ; Python float
arithmetic is modelled exactly over the rationals).  The spreadsheet is a
list of named tabs, each an ordered list of rows; a row is a list of cell
values.  External backend calls (authentication, worksheet lookup/creation,
append, cell update) are numbered in execution order and may be made to fail
by a schedule `Sched`, modelling exceptions raised by the underlying
service; every handler is the composition of those calls with the pure row
construction of the source, wrapped by the source's try/except into an HTTP
response.
-/

/-- A JSON / Python value as it appears in request bodies and sheet cells. -/
inductive JsonVal where
  | jnull
  | jbool (b : Bool)
  | jnum (q : ℚ)
  | jstr (s : String)
  | jarr (elems : List JsonVal)
  | jobj (fields : List (String × JsonVal))

abbrev Row := List JsonVal

/-- A parsed JSON object body (`request.json`), as an association list. -/
abbrev PyDict := List (String × JsonVal)

/-- Python `dict.get(key, default)`: the first binding of `key`, else `default`. -/
def dictGet (d : PyDict) (key : String) (dflt : JsonVal) : JsonVal :=
  match d.find? (fun p => p.1 == key) with
  | some p => p.2
  | none => dflt

/-- Python `key in dict` / `dict[key]` combined: the bound value when present. -/
def dictFind (d : PyDict) (key : String) : Option JsonVal :=
  (d.find? (fun p => p.1 == key)).map (fun p => p.2)

structure Worksheet where
  rows : List Row

structure Spreadsheet where
  tabs : List (String × Worksheet)

def emptySS : Spreadsheet := ⟨[]⟩

/-- Model of `spreadsheet.worksheet(name)`: the first tab with the given title. -/
def Spreadsheet.findTab (ss : Spreadsheet) (name : String) : Option Worksheet :=
  (ss.tabs.find? (fun p => p.1 == name)).map (fun p => p.2)

/-- Model of `spreadsheet.add_worksheet(title=name, ...)`: a fresh tab appended at the end. -/
def Spreadsheet.addTab (ss : Spreadsheet) (name : String) (ws : Worksheet) : Spreadsheet :=
  ⟨ss.tabs ++ [(name, ws)]⟩

def Spreadsheet.modifyTab (ss : Spreadsheet) (name : String) (f : Worksheet → Worksheet) :
    Spreadsheet :=
  ⟨ss.tabs.map (fun p => if p.1 == name then (p.1, f p.2) else p)⟩

/-- Model of `ws.append_row(row)`: one row added after the last filled row of the tab. -/
def appendRowTo (ss : Spreadsheet) (name : String) (row : Row) : Spreadsheet :=
  ss.modifyTab name (fun ws => ⟨ws.rows ++ [row]⟩)

def padTo (xs : List α) (n : Nat) (d : α) : List α :=
  xs ++ List.replicate (n - xs.length) d

/-- Model of `ws.update_cell(r, c, v)` with 1-based indices; the grid is extended with
empty cells when the target lies beyond the current extent. -/
def Worksheet.updateCell (ws : Worksheet) (r c : Nat) (v : JsonVal) : Worksheet :=
  let rows := padTo ws.rows r []
  let row := padTo (rows.getD (r - 1) []) c (JsonVal.jstr "")
  ⟨rows.set (r - 1) (row.set (c - 1) v)⟩

def updateCellAt (ss : Spreadsheet) (name : String) (r c : Nat) (v : JsonVal) : Spreadsheet :=
  ss.modifyTab name (fun ws => ws.updateCell r c v)

/-- Read cell (r, c) (1-based); absent cells read as the empty string. -/
def Worksheet.cell (ws : Worksheet) (r c : Nat) : JsonVal :=
  (ws.rows.getD (r - 1) []).getD (c - 1) (JsonVal.jstr "")

def Spreadsheet.cellOf (ss : Spreadsheet) (name : String) (r c : Nat) : JsonVal :=
  match ss.findTab name with
  | some ws => ws.cell r c
  | none => JsonVal.jstr ""

/-! ### Python value semantics used by `app.py` -/

/-- Python truthiness of a JSON-decoded value (`if labor_days ...`). -/
def pyTruthy : JsonVal → Bool
  | .jnull => false
  | .jbool b => b
  | .jnum q => q != 0
  | .jstr s => s != ""
  | .jarr xs => !xs.isEmpty
  | .jobj kvs => !kvs.isEmpty

/-- Python `str.strip()`: leading and trailing whitespace removed, over the
character list of the string. -/
def stripChars (cs : List Char) : List Char :=
  ((cs.dropWhile Char.isWhitespace).reverse.dropWhile Char.isWhitespace).reverse

/-- Whether Python `str(v).strip()` is nonempty.  `str` of any non-string
value (None, bools, numbers, lists, dicts) is a nonempty non-whitespace
text, so only strings can fail this check. -/
def strStripNonempty : JsonVal → Bool
  | .jstr s => !(stripChars s.toList).isEmpty
  | _ => true

def digitsToNat (cs : List Char) : Nat :=
  cs.foldl (fun a c => a * 10 + (c.toNat - 48)) 0

/-- Python `float(s)` on a string: optional surrounding whitespace and sign,
then digits with an optional decimal point and optional exponent.
(`inf`/`nan` spellings and digit underscores are not modelled.) -/
def parseFloatString (s : String) : Option ℚ :=
  let cs0 := stripChars s.toList
  let signed : ℚ × List Char :=
    match cs0 with
    | '+' :: rest => (1, rest)
    | '-' :: rest => (-1, rest)
    | _ => (1, cs0)
  let sign := signed.1
  let cs := signed.2
  let intPart := cs.takeWhile Char.isDigit
  let cs1 := cs.dropWhile Char.isDigit
  let fracSplit : List Char × List Char :=
    match cs1 with
    | '.' :: rest => (rest.takeWhile Char.isDigit, rest.dropWhile Char.isDigit)
    | _ => ([], cs1)
  let fracPart := fracSplit.1
  let cs2 := fracSplit.2
  if intPart.isEmpty && fracPart.isEmpty then none
  else
    let expSplit : Bool × Int × List Char :=
      match cs2 with
      | 'e' :: r =>
        let esigned : Int × List Char :=
          match r with
          | '+' :: t => (1, t)
          | '-' :: t => (-1, t)
          | _ => (1, r)
        let ed := esigned.2.takeWhile Char.isDigit
        let r3 := esigned.2.dropWhile Char.isDigit
        if ed.isEmpty then (false, 0, r3) else (true, esigned.1 * (digitsToNat ed : Int), r3)
      | 'E' :: r =>
        let esigned : Int × List Char :=
          match r with
          | '+' :: t => (1, t)
          | '-' :: t => (-1, t)
          | _ => (1, r)
        let ed := esigned.2.takeWhile Char.isDigit
        let r3 := esigned.2.dropWhile Char.isDigit
        if ed.isEmpty then (false, 0, r3) else (true, esigned.1 * (digitsToNat ed : Int), r3)
      | _ => (true, 0, cs2)
    if !expSplit.1 || !expSplit.2.2.isEmpty then none
    else
      let mantissa : ℚ :=
        (digitsToNat intPart : ℚ) + (digitsToNat fracPart : ℚ) / ((10 : ℚ) ^ fracPart.length)
      some (sign * mantissa * (10 : ℚ) ^ expSplit.2.1)

/-- Python `float(v)`: numbers and bools convert, strings are parsed,
everything else raises (`None`, lists, dicts → TypeError, bad strings →
ValueError; both are caught by the source's `except (ValueError, TypeError)`). -/
def pyFloat : JsonVal → Option ℚ
  | .jnum q => some q
  | .jbool b => some (bif b then 1 else 0)
  | .jstr s => parseFloatString s
  | _ => none

def asStrList : List JsonVal → Except String (List String)
  | [] => .ok []
  | .jstr s :: rest => (asStrList rest).map (fun t => s :: t)
  | _ :: _ => .error "TypeError: sequence item: expected str instance"

/-- Python `", ".join(v)`: joins a list of strings; a string is joined
character by character; any other value raises TypeError. -/
def pyJoinCommaSpace : JsonVal → Except String String
  | .jarr xs => (asStrList xs).map (String.intercalate ", ")
  | .jstr s => .ok (String.intercalate ", " (s.toList.map (fun c => String.singleton c)))
  | _ => .error "TypeError: can only join an iterable"

/-- Python `v.get(key, default)` on a value expected to be a dict
(`conditions.get(...)`); raises AttributeError on non-dicts. -/
def pyDictGetVal : JsonVal → String → JsonVal → Except String JsonVal
  | .jobj kvs, key, dflt => .ok (dictGet kvs key dflt)
  | _, _, _ => .error "AttributeError: object has no attribute get"

/-! ### Constants and header schemas (`app.py` lines 20-37, 69-87) -/

def TAB_INQUIRIES : String := "Customer Inquiries"
def TAB_ESTIMATES : String := "Detailed Estimates"
def TAB_PIPELINE : String := "Job Pipeline Master"
def TAB_JOBLIST : String := "Joblist"

def LABOR_RATE : ℚ := 560

def JOBLIST_HEADERS : List String :=
  ["Job Address", "Interior/Exterior", "Status", "Priority",
   "Labor Days", "Action Needed", "Notes", "Start Date",
   "Completion Date", "Hood", "Customer Name", "Phone", "Email",
   "Date Added", "Last Updated", "Estimate Complete", "Estimator",
   "Estimated Value", "Days Since Est Sent", "Priority Sort", "Status Sort"]

def INQUIRY_HEADERS : List String :=
  ["Timestamp", "Customer Name", "Phone", "Email", "Address",
   "Job Types", "Timeline", "Last Painted", "Previous Customer",
   "Notes", "Status"]

def ESTIMATE_HEADERS : List String :=
  ["Date", "Customer Name", "Job Address", "Estimator", "Job Type",
   "Total Hours", "Labor Days", "Estimated Value",
   "Prep Condition", "Furniture Level", "Ladder Requirement",
   "Colors/Products", "Equipment Needed", "Notes"]

def PIPELINE_HEADERS : List String :=
  ["Date Added", "Customer Name", "Address", "Phone", "Job Type",
   "Estimated Days", "Estimated Value", "Status", "Scheduled Date",
   "Estimator", "Notes"]

/-- Function `get_or_create_worksheet` (`app.py` lines 59-66): return the tab when it
exists; otherwise create it and write the header row. -/
def get_or_create_worksheet (ss : Spreadsheet) (tabName : String) (headers : List String) :
    Spreadsheet :=
  match ss.findTab tabName with
  | some _ => ss
  | none => ss.addTab tabName ⟨[headers.map JsonVal.jstr]⟩

/-! ### Backend calls and failure injection

Each call against the external sheets service (authentication/open,
worksheet lookup-or-create, row append, cell update, full read) is numbered
in execution order; a schedule may make any call raise, in which case the
call leaves the spreadsheet unchanged and the exception text propagates to
the handler's `except` clause. -/

abbrev Sched := Nat → Option String

/-- The schedule on which every backend call succeeds. -/
def noFail : Sched := fun _ => none

/-- The schedule on which exactly call `k` raises, with text `e`. -/
def injectAt (k : Nat) (e : String) : Sched :=
  fun n => if n == k then some e else none

structure RunSt where
  ss : Spreadsheet
  calls : Nat

/-- Perform one backend call: consult the schedule at the current call
number; on success apply the call's effect on the spreadsheet. -/
def callExc (sched : Sched) (st : RunSt) (op : Spreadsheet → Spreadsheet) :
    RunSt × Except String Unit :=
  match sched st.calls with
  | some e => (⟨st.ss, st.calls + 1⟩, .error e)
  | none => (⟨op st.ss, st.calls + 1⟩, .ok ())

/-- Sequencing: the first raised exception aborts the rest of the handler
body (Python exception propagation inside the `try` block). -/
def andThen (x : RunSt × Except String Unit) (f : RunSt → RunSt × Except String Unit) :
    RunSt × Except String Unit :=
  match x with
  | (st, .error e) => (st, .error e)
  | (st, .ok _) => f st

structure HttpResponse where
  status : Nat
  success : Bool
  error : Option String

/-- The try/except boundary of every route: a completed body yields a
success JSON, any exception yields HTTP 500 with the raw error text. -/
def wrapRoute (x : RunSt × Except String Unit) : Spreadsheet × HttpResponse :=
  match x with
  | (st, .ok _) => (st.ss, ⟨200, true, none⟩)
  | (st, .error e) => (st.ss, ⟨500, false, some e⟩)

/-! ### Joblist writer (`app.py` lines 91-130) -/

/-- The keyword arguments accepted by `append_to_joblist`; an absent field
models an omitted keyword argument. -/
structure JoblistKwargs where
  address : Option JsonVal := none
  int_ext : Option JsonVal := none
  status : Option JsonVal := none
  priority : Option JsonVal := none
  labor_days : Option JsonVal := none
  action : Option JsonVal := none
  notes : Option JsonVal := none
  start_date : Option JsonVal := none
  completion_date : Option JsonVal := none
  hood : Option JsonVal := none
  customer_name : Option JsonVal := none
  phone : Option JsonVal := none
  email : Option JsonVal := none
  date_added : Option JsonVal := none
  last_updated : Option JsonVal := none
  est_complete : Option JsonVal := none
  estimator : Option JsonVal := none

/-- Lines 98-104: `est_value = ""` unless `labor_days` is truthy, its `str`
strips to nonempty, and `float(labor_days)` succeeds, in which case
`est_value = float(labor_days) * LABOR_RATE`. -/
def estValueOf (labor_days : JsonVal) : JsonVal :=
  if pyTruthy labor_days && strStripNonempty labor_days then
    match pyFloat labor_days with
    | some d => .jnum (d * LABOR_RATE)
    | none => .jstr ""
  else .jstr ""

/-- The 21-cell row of lines 106-128 (columns A-U of the Joblist tab). -/
def joblistRow (k : JoblistKwargs) (today : String) : Row :=
  let labor_days := k.labor_days.getD (.jstr "")
  let est_value := estValueOf labor_days
  [k.address.getD (.jstr ""),
   k.int_ext.getD (.jstr ""),
   k.status.getD (.jstr ""),
   k.priority.getD (.jstr ""),
   labor_days,
   k.action.getD (.jstr ""),
   k.notes.getD (.jstr ""),
   k.start_date.getD (.jstr ""),
   k.completion_date.getD (.jstr ""),
   k.hood.getD (.jstr ""),
   k.customer_name.getD (.jstr ""),
   k.phone.getD (.jstr ""),
   k.email.getD (.jstr ""),
   k.date_added.getD (.jstr today),
   k.last_updated.getD (.jstr today),
   k.est_complete.getD (.jstr ""),
   k.estimator.getD (.jstr ""),
   est_value,
   .jstr "",
   .jstr "",
   .jstr ""]

/-- Function `append_to_joblist` (lines 91-130): ensure the Joblist tab, then append
the constructed row.  Two backend calls. -/
def append_to_joblist_run (sched : Sched) (st : RunSt) (today : String) (k : JoblistKwargs) :
    RunSt × Except String Unit :=
  andThen (callExc sched st (fun s => get_or_create_worksheet s TAB_JOBLIST JOBLIST_HEADERS))
    (fun st2 => callExc sched st2 (fun s => appendRowTo s TAB_JOBLIST (joblistRow k today)))

/-! ### Route handlers (`app.py` lines 140-317)

`now` stands for `datetime.now().isoformat()` and `today` for
`datetime.now().strftime("%m/%d/%Y")` at the time of the request. -/

/-- The row literal of `save_inquiry` (lines 147-159), with `jt` the result
of joining `data.get("jobTypes", [])`. -/
def inquiryRowOf (data : PyDict) (now jt : String) : Row :=
  [dictGet data "timestamp" (.jstr now),
   dictGet data "customerName" (.jstr ""),
   dictGet data "phone" (.jstr ""),
   dictGet data "email" (.jstr ""),
   dictGet data "address" (.jstr ""),
   .jstr jt,
   dictGet data "timeline" (.jstr ""),
   dictGet data "lastPainted" (.jstr ""),
   dictGet data "previousCustomer" (.jstr ""),
   dictGet data "notes" (.jstr ""),
   dictGet data "status" (.jstr "New")]

/-- The `append_to_joblist` keyword arguments of lines 164-174. -/
def inquiryMirrorKwargs (data : PyDict) (jt : String) : JoblistKwargs :=
  { address := some (dictGet data "address" (.jstr ""))
    customer_name := some (dictGet data "customerName" (.jstr ""))
    phone := some (dictGet data "phone" (.jstr ""))
    email := some (dictGet data "email" (.jstr ""))
    status := some (.jstr "Need Estimate")
    hood := some (dictGet data "hood" (.jstr ""))
    notes := some (dictGet data "notes" (.jstr ""))
    int_ext := some (.jstr jt) }

/-- Body of `save_inquiry` (lines 141-178).  Backend calls in order:
0 `get_sheet`, 1 ensure Customer Inquiries, 2 append the inquiry row,
3 ensure Joblist, 4 append the mirror row. -/
def save_inquiry_core (sched : Sched) (data : PyDict) (now today : String) (ss : Spreadsheet) :
    RunSt × Except String Unit :=
  andThen (callExc sched ⟨ss, 0⟩ id) (fun st1 =>
  andThen (callExc sched st1 (fun s => get_or_create_worksheet s TAB_INQUIRIES INQUIRY_HEADERS))
    (fun st2 =>
    match pyJoinCommaSpace (dictGet data "jobTypes" (.jarr [])) with
    | .error e => (st2, .error e)
    | .ok jt =>
      andThen (callExc sched st2 (fun s => appendRowTo s TAB_INQUIRIES (inquiryRowOf data now jt)))
        (fun st3 => append_to_joblist_run sched st3 today (inquiryMirrorKwargs data jt))))

/-- POST `/api/inquiry`. -/
def save_inquiry (sched : Sched) (data : PyDict) (now today : String) (ss : Spreadsheet) :
    Spreadsheet × HttpResponse :=
  wrapRoute (save_inquiry_core sched data now today ss)

/-- Body of `get_inquiries` (lines 182-190).  Calls: 0 `get_sheet`,
1 ensure Customer Inquiries, 2 `get_all_records` (a read). -/
def get_inquiries_core (sched : Sched) (ss : Spreadsheet) : RunSt × Except String Unit :=
  andThen (callExc sched ⟨ss, 0⟩ id) (fun st1 =>
  andThen (callExc sched st1 (fun s => get_or_create_worksheet s TAB_INQUIRIES INQUIRY_HEADERS))
    (fun st2 => callExc sched st2 id))

/-- GET `/api/inquiries`. -/
def get_inquiries (sched : Sched) (ss : Spreadsheet) : Spreadsheet × HttpResponse :=
  wrapRoute (get_inquiries_core sched ss)

/-- The row literal of `save_estimate` (lines 201-217), with the three
condition fields and the joined tools list already extracted. -/
def estimateRowOf (data : PyDict) (today : String) (prep furniture ladder : JsonVal)
    (tools : String) : Row :=
  [dictGet data "date" (.jstr today),
   dictGet data "customerName" (.jstr ""),
   dictGet data "jobAddress" (.jstr ""),
   dictGet data "estimator" (.jstr ""),
   dictGet data "jobType" (.jstr ""),
   dictGet data "totalHours" (.jnum 0),
   dictGet data "laborDays" (.jnum 0),
   dictGet data "totalValue" (.jnum 0),
   prep,
   furniture,
   ladder,
   dictGet data "colors" (.jstr ""),
   .jstr tools,
   dictGet data "notes" (.jstr "")]

/-- The `append_to_joblist` keyword arguments of lines 222-233. -/
def estimateMirrorKwargs (data : PyDict) : JoblistKwargs :=
  { address := some (dictGet data "jobAddress" (.jstr ""))
    customer_name := some (dictGet data "customerName" (.jstr ""))
    status := some (.jstr "Estimate Sent")
    labor_days := some (dictGet data "laborDays" (.jnum 0))
    int_ext := some (dictGet data "jobType" (.jstr ""))
    start_date := some (dictGet data "startDate" (.jstr ""))
    notes := some (dictGet data "notes" (.jstr ""))
    estimator := some (dictGet data "estimator" (.jstr ""))
    est_complete := some (.jstr "Yes") }

/-- Body of `save_estimate` (lines 195-237).  Calls: 0 `get_sheet`,
1 ensure Detailed Estimates, 2 append the estimate row, 3 ensure Joblist,
4 append the mirror row. -/
def save_estimate_core (sched : Sched) (data : PyDict) (today : String) (ss : Spreadsheet) :
    RunSt × Except String Unit :=
  andThen (callExc sched ⟨ss, 0⟩ id) (fun st1 =>
  andThen (callExc sched st1 (fun s => get_or_create_worksheet s TAB_ESTIMATES ESTIMATE_HEADERS))
    (fun st2 =>
    let conditions := dictGet data "conditions" (.jobj [])
    match pyDictGetVal conditions "prep" (.jstr "") with
    | .error e => (st2, .error e)
    | .ok prep =>
    match pyDictGetVal conditions "furniture" (.jstr "") with
    | .error e => (st2, .error e)
    | .ok furniture =>
    match pyDictGetVal conditions "ladder" (.jstr "") with
    | .error e => (st2, .error e)
    | .ok ladder =>
    match pyJoinCommaSpace (dictGet data "tools" (.jarr [])) with
    | .error e => (st2, .error e)
    | .ok tools =>
      andThen (callExc sched st2 (fun s =>
          appendRowTo s TAB_ESTIMATES (estimateRowOf data today prep furniture ladder tools)))
        (fun st3 => append_to_joblist_run sched st3 today (estimateMirrorKwargs data))))

/-- POST `/api/estimate`. -/
def save_estimate (sched : Sched) (data : PyDict) (today : String) (ss : Spreadsheet) :
    Spreadsheet × HttpResponse :=
  wrapRoute (save_estimate_core sched data today ss)

/-- Body of `get_jobs` (lines 241-250).  Calls: 0 `get_sheet`, 1 ensure
Job Pipeline Master, 2 `get_all_records` (a read). -/
def get_jobs_core (sched : Sched) (ss : Spreadsheet) : RunSt × Except String Unit :=
  andThen (callExc sched ⟨ss, 0⟩ id) (fun st1 =>
  andThen (callExc sched st1 (fun s => get_or_create_worksheet s TAB_PIPELINE PIPELINE_HEADERS))
    (fun st2 => callExc sched st2 id))

/-- GET `/api/jobs`. -/
def get_jobs (sched : Sched) (ss : Spreadsheet) : Spreadsheet × HttpResponse :=
  wrapRoute (get_jobs_core sched ss)

/-- The row literal of `add_job` (lines 260-272). -/
def addJobRowOf (data : PyDict) (today : String) : Row :=
  [dictGet data "dateAdded" (.jstr today),
   dictGet data "customerName" (.jstr ""),
   dictGet data "address" (.jstr ""),
   dictGet data "phone" (.jstr ""),
   dictGet data "jobType" (.jstr ""),
   dictGet data "estimatedDays" (.jstr ""),
   dictGet data "estimatedValue" (.jstr ""),
   dictGet data "status" (.jstr "New Lead"),
   dictGet data "scheduledDate" (.jstr ""),
   dictGet data "estimator" (.jstr ""),
   dictGet data "notes" (.jstr "")]

/-- Body of `add_job` (lines 253-278).  Calls: 0 `get_sheet`, 1 ensure
Job Pipeline Master, 2 append the pipeline row. -/
def add_job_core (sched : Sched) (data : PyDict) (today : String) (ss : Spreadsheet) :
    RunSt × Except String Unit :=
  andThen (callExc sched ⟨ss, 0⟩ id) (fun st1 =>
  andThen (callExc sched st1 (fun s => get_or_create_worksheet s TAB_PIPELINE PIPELINE_HEADERS))
    (fun st2 => callExc sched st2 (fun s => appendRowTo s TAB_PIPELINE (addJobRowOf data today))))

/-- POST `/api/job`. -/
def add_job (sched : Sched) (data : PyDict) (today : String) (ss : Spreadsheet) :
    Spreadsheet × HttpResponse :=
  wrapRoute (add_job_core sched data today ss)

/-- Body of `update_job` (lines 281-298).  Calls: 0 `get_sheet`, 1 ensure
Job Pipeline Master, then one `update_cell` call per present key, in the
order status (column 8), scheduledDate (column 9), notes (column 11);
`row_index` is the caller-supplied path integer. -/
def update_job_core (sched : Sched) (data : PyDict) (row_index : Nat) (ss : Spreadsheet) :
    RunSt × Except String Unit :=
  andThen (callExc sched ⟨ss, 0⟩ id) (fun st1 =>
  andThen (callExc sched st1 (fun s => get_or_create_worksheet s TAB_PIPELINE PIPELINE_HEADERS))
    (fun st2 =>
    let afterStatus : RunSt × Except String Unit :=
      match dictFind data "status" with
      | some v => callExc sched st2 (fun s => updateCellAt s TAB_PIPELINE row_index 8 v)
      | none => (st2, .ok ())
    andThen afterStatus (fun st3 =>
    let afterSched : RunSt × Except String Unit :=
      match dictFind data "scheduledDate" with
      | some v => callExc sched st3 (fun s => updateCellAt s TAB_PIPELINE row_index 9 v)
      | none => (st3, .ok ())
    andThen afterSched (fun st4 =>
    match dictFind data "notes" with
    | some v => callExc sched st4 (fun s => updateCellAt s TAB_PIPELINE row_index 11 v)
    | none => (st4, .ok ())))))

/-- PUT `/api/job/<row_index>`. -/
def update_job (sched : Sched) (data : PyDict) (row_index : Nat) (ss : Spreadsheet) :
    Spreadsheet × HttpResponse :=
  wrapRoute (update_job_core sched data row_index ss)

/-- Body of `setup_sheets` (lines 302-317).  Calls: 0 `get_sheet`, then one
ensure per tab: 1 Customer Inquiries, 2 Detailed Estimates, 3 Job Pipeline
Master.  The Joblist tab is not among them. -/
def setup_sheets_core (sched : Sched) (ss : Spreadsheet) : RunSt × Except String Unit :=
  andThen (callExc sched ⟨ss, 0⟩ id) (fun st1 =>
  andThen (callExc sched st1 (fun s => get_or_create_worksheet s TAB_INQUIRIES INQUIRY_HEADERS))
    (fun st2 =>
  andThen (callExc sched st2 (fun s => get_or_create_worksheet s TAB_ESTIMATES ESTIMATE_HEADERS))
    (fun st3 =>
    callExc sched st3 (fun s => get_or_create_worksheet s TAB_PIPELINE PIPELINE_HEADERS))))

/-- POST `/api/setup`. -/
def setup_sheets (sched : Sched) (ss : Spreadsheet) : Spreadsheet × HttpResponse :=
  wrapRoute (setup_sheets_core sched ss)

/-! ### Helper lemmas: grids -/

theorem getD_padTo (xs : List α) (n i : Nat) (d : α) :
    (padTo xs n d).getD i d = xs.getD i d := by
  unfold padTo
  rcases Nat.lt_or_ge i xs.length with h | h
  · simp [List.getD_eq_getElem?_getD, List.getElem?_append_left h]
  · rw [List.getD_eq_getElem?_getD, List.getD_eq_getElem?_getD,
      List.getElem?_append_right h, List.getElem?_eq_none h, List.getElem?_replicate]
    split <;> simp

theorem length_padTo (xs : List α) (n : Nat) (d : α) :
    (padTo xs n d).length = max xs.length n := by
  simp [padTo]
  omega

theorem getD_set_self (l : List α) (i : Nat) (a d : α) (h : i < l.length) :
    (l.set i a).getD i d = a := by
  simp [List.getD_eq_getElem?_getD, List.getElem?_set_self h]

theorem getD_set_ne (l : List α) (i j : Nat) (a d : α) (h : i ≠ j) :
    (l.set i a).getD j d = l.getD j d := by
  simp [List.getD_eq_getElem?_getD, List.getElem?_set_ne h]

theorem cell_updateCell_self (ws : Worksheet) (r c : Nat) (v : JsonVal)
    (hr : 1 ≤ r) (hc : 1 ≤ c) : (ws.updateCell r c v).cell r c = v := by
  unfold Worksheet.updateCell Worksheet.cell
  simp only
  have h1 : r - 1 < (padTo ws.rows r []).length := by
    rw [length_padTo]; omega
  rw [getD_set_self _ _ _ _ h1]
  have h2 : c - 1 <
      (padTo ((padTo ws.rows r []).getD (r - 1) []) c (JsonVal.jstr "")).length := by
    rw [length_padTo]; omega
  rw [getD_set_self _ _ _ _ h2]

theorem cell_updateCell_ne (ws : Worksheet) (r c r' c' : Nat) (v : JsonVal)
    (hr : 1 ≤ r) (hc : 1 ≤ c) (hr' : 1 ≤ r') (hc' : 1 ≤ c')
    (h : ¬(r' = r ∧ c' = c)) :
    (ws.updateCell r c v).cell r' c' = ws.cell r' c' := by
  unfold Worksheet.updateCell Worksheet.cell
  simp only
  by_cases hrr : r' = r
  · subst hrr
    have hcc : c' ≠ c := fun hb => h ⟨rfl, hb⟩
    have h1 : r' - 1 < (padTo ws.rows r' []).length := by
      rw [length_padTo]; omega
    rw [getD_set_self _ _ _ _ h1]
    have h2 : c - 1 ≠ c' - 1 := by omega
    rw [getD_set_ne _ _ _ _ _ h2, getD_padTo, getD_padTo]
  · have h1 : r - 1 ≠ r' - 1 := by omega
    rw [getD_set_ne _ _ _ _ _ h1, getD_padTo]

/-! ### Helper lemmas: tab lookup -/

theorem find?_map_keepFst (l : List (String × Worksheet)) (t t' : String)
    (f : Worksheet → Worksheet) :
    ((l.map (fun p => if p.1 == t then (p.1, f p.2) else p)).find? (fun p => p.1 == t')) =
      ((l.find? (fun p => p.1 == t')).map (fun p => if p.1 == t then (p.1, f p.2) else p)) := by
  rw [List.find?_map]
  have hcomp : ((fun p : String × Worksheet => p.1 == t') ∘
      (fun p : String × Worksheet => if p.1 == t then (p.1, f p.2) else p)) =
      (fun p : String × Worksheet => p.1 == t') := by
    funext p
    by_cases hp : p.1 = t <;> simp [hp]
  rw [hcomp]

theorem findTab_modifyTab (ss : Spreadsheet) (t t' : String) (f : Worksheet → Worksheet) :
    (ss.modifyTab t f).findTab t' =
      (ss.findTab t').map (fun ws => if t' = t then f ws else ws) := by
  unfold Spreadsheet.findTab Spreadsheet.modifyTab
  simp only [find?_map_keepFst]
  cases hf : ss.tabs.find? (fun p => p.1 == t') with
  | none => rfl
  | some p =>
    have hp := List.find?_some hf
    simp only [beq_iff_eq] at hp
    by_cases h : t' = t <;> simp [hp, h]

theorem findTab_appendRowTo_self (ss : Spreadsheet) (t : String) (row : Row) (ws : Worksheet)
    (h : ss.findTab t = some ws) :
    (appendRowTo ss t row).findTab t = some ⟨ws.rows ++ [row]⟩ := by
  unfold appendRowTo
  rw [findTab_modifyTab, h]
  simp

theorem findTab_appendRowTo_ne (ss : Spreadsheet) (t t' : String) (row : Row)
    (h : t' ≠ t) : (appendRowTo ss t row).findTab t' = ss.findTab t' := by
  unfold appendRowTo
  rw [findTab_modifyTab]
  simp [h]

theorem findTab_updateCellAt_self (ss : Spreadsheet) (t : String) (r c : Nat) (v : JsonVal)
    (ws : Worksheet) (h : ss.findTab t = some ws) :
    (updateCellAt ss t r c v).findTab t = some (ws.updateCell r c v) := by
  unfold updateCellAt
  rw [findTab_modifyTab, h]
  simp

theorem findTab_updateCellAt_ne (ss : Spreadsheet) (t t' : String) (r c : Nat) (v : JsonVal)
    (h : t' ≠ t) : (updateCellAt ss t r c v).findTab t' = ss.findTab t' := by
  unfold updateCellAt
  rw [findTab_modifyTab]
  simp [h]

theorem findTab_addTab_self (ss : Spreadsheet) (t : String) (ws : Worksheet)
    (h : ss.findTab t = none) : (ss.addTab t ws).findTab t = some ws := by
  unfold Spreadsheet.findTab Spreadsheet.addTab
  unfold Spreadsheet.findTab at h
  simp only [List.find?_append]
  cases hf : ss.tabs.find? (fun p => p.1 == t) with
  | none => simp [List.find?_cons]
  | some p => rw [hf] at h; simp at h

theorem findTab_addTab_ne (ss : Spreadsheet) (t t' : String) (ws : Worksheet)
    (h : t' ≠ t) : (ss.addTab t ws).findTab t' = ss.findTab t' := by
  have hs : t ≠ t' := Ne.symm h
  unfold Spreadsheet.findTab Spreadsheet.addTab
  simp only [List.find?_append]
  cases hf : ss.tabs.find? (fun p => p.1 == t') with
  | none => simp [List.find?_cons, hs]
  | some p => simp

theorem get_or_create_of_found (ss : Spreadsheet) (t : String) (headers : List String)
    (ws : Worksheet) (hws : ss.findTab t = some ws) :
    get_or_create_worksheet ss t headers = ss := by
  simp [get_or_create_worksheet, hws]

theorem get_or_create_of_none (ss : Spreadsheet) (t : String) (headers : List String)
    (hn : ss.findTab t = none) :
    get_or_create_worksheet ss t headers = ss.addTab t ⟨[headers.map .jstr]⟩ := by
  simp [get_or_create_worksheet, hn]

theorem findTab_get_or_create_self (ss : Spreadsheet) (t : String) (headers : List String) :
    (get_or_create_worksheet ss t headers).findTab t =
      some ((ss.findTab t).getD ⟨[headers.map .jstr]⟩) := by
  cases hf : ss.findTab t with
  | some ws => rw [get_or_create_of_found ss t headers ws hf, hf]; rfl
  | none => rw [get_or_create_of_none ss t headers hf, findTab_addTab_self ss t _ hf]; rfl

theorem findTab_get_or_create_ne (ss : Spreadsheet) (t t' : String) (headers : List String)
    (h : t' ≠ t) :
    (get_or_create_worksheet ss t headers).findTab t' = ss.findTab t' := by
  cases hf : ss.findTab t with
  | some ws => rw [get_or_create_of_found ss t headers ws hf]
  | none => rw [get_or_create_of_none ss t headers hf, findTab_addTab_ne ss t t' _ h]

/-! ### Helper lemmas: call sequencing and responses -/

theorem callExc_noFail (st : RunSt) (op : Spreadsheet → Spreadsheet) :
    callExc noFail st op = (⟨op st.ss, st.calls + 1⟩, .ok ()) := rfl

theorem andThen_ok (st : RunSt) (f : RunSt → RunSt × Except String Unit) :
    andThen (st, .ok ()) f = f st := rfl

theorem andThen_error (st : RunSt) (e : String) (f : RunSt → RunSt × Except String Unit) :
    andThen (st, .error e) f = (st, .error e) := rfl

/-- Every wrapped response is either a 200 success or a 500 failure that
carries the raw text of the exception the body raised. -/
theorem wrapRoute_cases (x : RunSt × Except String Unit) :
    ((wrapRoute x).2 = ⟨200, true, none⟩ ∧ x.2 = .ok ())
    ∨ (∃ e, (wrapRoute x).2 = ⟨500, false, some e⟩ ∧ x.2 = .error e) := by
  obtain ⟨st, r⟩ := x
  cases r with
  | ok u => exact Or.inl ⟨rfl, rfl⟩
  | error e => exact Or.inr ⟨e, rfl, rfl⟩

theorem tabs_distinct :
    TAB_JOBLIST ≠ TAB_INQUIRIES ∧ TAB_JOBLIST ≠ TAB_ESTIMATES ∧ TAB_JOBLIST ≠ TAB_PIPELINE
    ∧ TAB_INQUIRIES ≠ TAB_ESTIMATES ∧ TAB_INQUIRIES ≠ TAB_PIPELINE
    ∧ TAB_ESTIMATES ≠ TAB_PIPELINE := by
  refine ⟨?_, ?_, ?_, ?_, ?_, ?_⟩ <;> decide

/-! ### Helper lemmas: Python value semantics -/

theorem asStrList_map_jstr (xs : List String) : asStrList (xs.map .jstr) = .ok xs := by
  induction xs with
  | nil => rfl
  | cons hd tl ih => simp [asStrList, ih, Except.map]

theorem pyJoin_map_jstr (xs : List String) :
    pyJoinCommaSpace (.jarr (xs.map .jstr)) = .ok (String.intercalate ", " xs) := by
  simp [pyJoinCommaSpace, asStrList_map_jstr, Except.map]

theorem parseFloatString_strip_ne (s : String) (d : ℚ) (h : parseFloatString s = some d) :
    stripChars s.toList ≠ [] := by
  intro he
  rw [parseFloatString, he] at h
  simp at h

theorem parseFloatString_ne_empty (s : String) (d : ℚ) (h : parseFloatString s = some d) :
    s ≠ "" := by
  intro he
  apply parseFloatString_strip_ne s d h
  rw [he]
  rfl

theorem estValueOf_jnum_ne (d : ℚ) (hd : d ≠ 0) :
    estValueOf (.jnum d) = .jnum (d * LABOR_RATE) := by
  simp [estValueOf, pyTruthy, strStripNonempty, pyFloat, bne_iff_ne, hd]

theorem estValueOf_jnum_zero : estValueOf (.jnum 0) = .jstr "" := rfl

theorem estValueOf_pyFloat_none (v : JsonVal) (h : pyFloat v = none) :
    estValueOf v = .jstr "" := by
  unfold estValueOf
  rw [h]
  split <;> rfl

theorem estValueOf_jstr_some (s : String) (d : ℚ) (h : parseFloatString s = some d) :
    estValueOf (.jstr s) = .jnum (d * LABOR_RATE) := by
  have h1 := parseFloatString_strip_ne s d h
  have h2 := parseFloatString_ne_empty s d h
  simp only [String.toList] at h1
  simp [estValueOf, pyTruthy, strStripNonempty, pyFloat, bne_iff_ne, h, h1, h2]

/-! ### Helper lemmas: handler execution shapes -/

theorem save_inquiry_core_noFail (data : PyDict) (now today : String) (ss : Spreadsheet)
    (jt : String) (hjt : pyJoinCommaSpace (dictGet data "jobTypes" (.jarr [])) = .ok jt) :
    save_inquiry_core noFail data now today ss =
      (⟨appendRowTo
          (get_or_create_worksheet
            (appendRowTo (get_or_create_worksheet ss TAB_INQUIRIES INQUIRY_HEADERS)
              TAB_INQUIRIES (inquiryRowOf data now jt))
            TAB_JOBLIST JOBLIST_HEADERS)
          TAB_JOBLIST (joblistRow (inquiryMirrorKwargs data jt) today), 5⟩, .ok ()) := by
  simp [save_inquiry_core, append_to_joblist_run, callExc, noFail, andThen, hjt]

theorem save_inquiry_success_join (data : PyDict) (now today : String) (ss : Spreadsheet)
    (hok : (save_inquiry noFail data now today ss).2.success = true) :
    ∃ jt, pyJoinCommaSpace (dictGet data "jobTypes" (.jarr [])) = .ok jt := by
  cases h : pyJoinCommaSpace (dictGet data "jobTypes" (.jarr [])) with
  | ok jt => exact ⟨jt, rfl⟩
  | error e =>
    exfalso
    rw [save_inquiry] at hok
    simp [save_inquiry_core, callExc, noFail, andThen, h, wrapRoute] at hok

theorem save_estimate_core_noFail (data : PyDict) (today : String) (ss : Spreadsheet)
    (prep furniture ladder : JsonVal) (tools : String)
    (h1 : pyDictGetVal (dictGet data "conditions" (.jobj [])) "prep" (.jstr "") = .ok prep)
    (h2 : pyDictGetVal (dictGet data "conditions" (.jobj [])) "furniture" (.jstr "")
      = .ok furniture)
    (h3 : pyDictGetVal (dictGet data "conditions" (.jobj [])) "ladder" (.jstr "") = .ok ladder)
    (h4 : pyJoinCommaSpace (dictGet data "tools" (.jarr [])) = .ok tools) :
    save_estimate_core noFail data today ss =
      (⟨appendRowTo
          (get_or_create_worksheet
            (appendRowTo (get_or_create_worksheet ss TAB_ESTIMATES ESTIMATE_HEADERS)
              TAB_ESTIMATES (estimateRowOf data today prep furniture ladder tools))
            TAB_JOBLIST JOBLIST_HEADERS)
          TAB_JOBLIST (joblistRow (estimateMirrorKwargs data) today), 5⟩, .ok ()) := by
  simp [save_estimate_core, append_to_joblist_run, callExc, noFail, andThen, h1, h2, h3, h4]

theorem save_estimate_success_parts (data : PyDict) (today : String) (ss : Spreadsheet)
    (hok : (save_estimate noFail data today ss).2.success = true) :
    ∃ prep furniture ladder tools,
      pyDictGetVal (dictGet data "conditions" (.jobj [])) "prep" (.jstr "") = .ok prep
      ∧ pyDictGetVal (dictGet data "conditions" (.jobj [])) "furniture" (.jstr "")
          = .ok furniture
      ∧ pyDictGetVal (dictGet data "conditions" (.jobj [])) "ladder" (.jstr "") = .ok ladder
      ∧ pyJoinCommaSpace (dictGet data "tools" (.jarr [])) = .ok tools := by
  rw [save_estimate] at hok
  cases h1 : pyDictGetVal (dictGet data "conditions" (.jobj [])) "prep" (.jstr "") with
  | error e =>
    exfalso
    simp [save_estimate_core, callExc, noFail, andThen, h1, wrapRoute] at hok
  | ok prep =>
  cases h2 : pyDictGetVal (dictGet data "conditions" (.jobj [])) "furniture" (.jstr "") with
  | error e =>
    exfalso
    simp [save_estimate_core, callExc, noFail, andThen, h1, h2, wrapRoute] at hok
  | ok furniture =>
  cases h3 : pyDictGetVal (dictGet data "conditions" (.jobj [])) "ladder" (.jstr "") with
  | error e =>
    exfalso
    simp [save_estimate_core, callExc, noFail, andThen, h1, h2, h3, wrapRoute] at hok
  | ok ladder =>
  cases h4 : pyJoinCommaSpace (dictGet data "tools" (.jarr [])) with
  | error e =>
    exfalso
    simp [save_estimate_core, callExc, noFail, andThen, h1, h2, h3, h4, wrapRoute] at hok
  | ok tools => exact ⟨prep, furniture, ladder, tools, rfl, rfl, rfl, rfl⟩

theorem save_inquiry_core_inject4 (data : PyDict) (now today : String) (ss : Spreadsheet)
    (jt : String) (e : String)
    (hjt : pyJoinCommaSpace (dictGet data "jobTypes" (.jarr [])) = .ok jt) :
    save_inquiry_core (injectAt 4 e) data now today ss =
      (⟨get_or_create_worksheet
          (appendRowTo (get_or_create_worksheet ss TAB_INQUIRIES INQUIRY_HEADERS)
            TAB_INQUIRIES (inquiryRowOf data now jt))
          TAB_JOBLIST JOBLIST_HEADERS, 5⟩, .error e) := by
  simp [save_inquiry_core, append_to_joblist_run, callExc, injectAt, andThen, hjt]

theorem save_estimate_core_inject4 (data : PyDict) (today : String) (ss : Spreadsheet)
    (prep furniture ladder : JsonVal) (tools : String) (e : String)
    (h1 : pyDictGetVal (dictGet data "conditions" (.jobj [])) "prep" (.jstr "") = .ok prep)
    (h2 : pyDictGetVal (dictGet data "conditions" (.jobj [])) "furniture" (.jstr "")
      = .ok furniture)
    (h3 : pyDictGetVal (dictGet data "conditions" (.jobj [])) "ladder" (.jstr "") = .ok ladder)
    (h4 : pyJoinCommaSpace (dictGet data "tools" (.jarr [])) = .ok tools) :
    save_estimate_core (injectAt 4 e) data today ss =
      (⟨get_or_create_worksheet
          (appendRowTo (get_or_create_worksheet ss TAB_ESTIMATES ESTIMATE_HEADERS)
            TAB_ESTIMATES (estimateRowOf data today prep furniture ladder tools))
          TAB_JOBLIST JOBLIST_HEADERS, 5⟩, .error e) := by
  simp [save_estimate_core, append_to_joblist_run, callExc, injectAt, andThen,
    h1, h2, h3, h4]

/-- Exact request-boundary correspondence for one endpoint: the HTTP
response is a 500 carrying precisely the raw text of the exception the
handler body raised, and a 200 success precisely when the body raised
nothing. -/
def respExact (out : Spreadsheet × HttpResponse) (core : RunSt × Except String Unit) : Prop :=
  (∀ e, out.2 = ⟨500, false, some e⟩ ↔ core.2 = .error e)
  ∧ (out.2 = ⟨200, true, none⟩ ↔ core.2 = .ok ())

theorem wrapRoute_respExact (x : RunSt × Except String Unit) : respExact (wrapRoute x) x := by
  obtain ⟨st, r⟩ := x
  cases r with
  | ok u =>
    cases u
    constructor
    · intro e
      simp [wrapRoute, respExact]
    · simp [wrapRoute, respExact]
  | error e =>
    constructor
    · intro e2
      simp [wrapRoute, respExact]
    · simp [wrapRoute, respExact]

/-- One optional `update_cell` write of `update_job`: performed exactly when
the corresponding key was present in the body. -/
def updOpt (s : Spreadsheet) (R col : Nat) (v? : Option JsonVal) : Spreadsheet :=
  match v? with
  | some v => updateCellAt s TAB_PIPELINE R col v
  | none => s

theorem update_job_core_noFail (data : PyDict) (R : Nat) (ss : Spreadsheet) :
    (update_job_core noFail data R ss).1.ss =
      updOpt (updOpt (updOpt (get_or_create_worksheet ss TAB_PIPELINE PIPELINE_HEADERS)
          R 8 (dictFind data "status"))
        R 9 (dictFind data "scheduledDate"))
      R 11 (dictFind data "notes")
    ∧ (update_job_core noFail data R ss).2 = .ok () := by
  rcases h1 : dictFind data "status" with _ | v1 <;>
    rcases h2 : dictFind data "scheduledDate" with _ | v2 <;>
      rcases h3 : dictFind data "notes" with _ | v3 <;>
        simp [update_job_core, callExc, noFail, andThen, updOpt, h1, h2, h3]

theorem findTab_updateCellAt_none (s : Spreadsheet) (t : String) (r c : Nat) (v : JsonVal)
    (hf : s.findTab t = none) : (updateCellAt s t r c v).findTab t = none := by
  unfold updateCellAt
  rw [findTab_modifyTab, hf]
  rfl

theorem cellOf_updateCellAt_ne (s : Spreadsheet) (t : String) (R col r c : Nat) (v : JsonVal)
    (hR : 1 ≤ R) (hcol : 1 ≤ col) (hr : 1 ≤ r) (hc : 1 ≤ c) (h : ¬(r = R ∧ c = col)) :
    (updateCellAt s t R col v).cellOf t r c = s.cellOf t r c := by
  unfold Spreadsheet.cellOf
  cases hf : s.findTab t with
  | none => rw [findTab_updateCellAt_none s t R col v hf]
  | some ws =>
    rw [findTab_updateCellAt_self s t R col v ws hf]
    exact cell_updateCell_ne ws R col r c v hR hcol hr hc h

theorem cellOf_updateCellAt_self (s : Spreadsheet) (t : String) (R col : Nat) (v : JsonVal)
    (ws : Worksheet) (hf : s.findTab t = some ws) (hR : 1 ≤ R) (hcol : 1 ≤ col) :
    (updateCellAt s t R col v).cellOf t R col = v := by
  unfold Spreadsheet.cellOf
  rw [findTab_updateCellAt_self s t R col v ws hf]
  exact cell_updateCell_self ws R col v hR hcol

theorem cellOf_updOpt_skip (s : Spreadsheet) (R col r c : Nat) (v? : Option JsonVal)
    (hR : 1 ≤ R) (hcol : 1 ≤ col) (hr : 1 ≤ r) (hc : 1 ≤ c)
    (h : v?.isSome → ¬(r = R ∧ c = col)) :
    (updOpt s R col v?).cellOf TAB_PIPELINE r c = s.cellOf TAB_PIPELINE r c := by
  cases v? with
  | none => rfl
  | some v =>
    exact cellOf_updateCellAt_ne s TAB_PIPELINE R col r c v hR hcol hr hc (h (by simp))

theorem findTab_updOpt_isSome (s : Spreadsheet) (R col : Nat) (v? : Option JsonVal)
    (ws : Worksheet) (hf : s.findTab TAB_PIPELINE = some ws) :
    ∃ ws2, (updOpt s R col v?).findTab TAB_PIPELINE = some ws2 := by
  cases v? with
  | none => exact ⟨ws, hf⟩
  | some v => exact ⟨_, findTab_updateCellAt_self s TAB_PIPELINE R col v ws hf⟩

theorem findTab_updOpt_ne_tab (s : Spreadsheet) (R col : Nat) (v? : Option JsonVal)
    (t : String) (h : t ≠ TAB_PIPELINE) :
    (updOpt s R col v?).findTab t = s.findTab t := by
  cases v? with
  | none => rfl
  | some v => exact findTab_updateCellAt_ne s TAB_PIPELINE t R col v h

/-! ### Claim theorems -/

/-- C3: calling the get-or-create tab operation twice in succession with the
same tab name never creates a second tab and never rewrites the existing
tab's header row — the second call returns the spreadsheet unchanged (even
with different supplied headers), and a call on a spreadsheet that already
has the tab returns it unchanged regardless of the tab's contents. -/
theorem C3_ensure_tab_idempotent (ss : Spreadsheet) (t : String) (hs hs' : List String) :
    get_or_create_worksheet (get_or_create_worksheet ss t hs) t hs'
      = get_or_create_worksheet ss t hs
    ∧ (∀ ws, ss.findTab t = some ws → get_or_create_worksheet ss t hs = ss) := by
  constructor
  · exact get_or_create_of_found _ t hs' _ (findTab_get_or_create_self ss t hs)
  · intro ws hw
    exact get_or_create_of_found ss t hs ws hw

theorem C3_witness :
    (get_or_create_worksheet
        (get_or_create_worksheet (Spreadsheet.mk [("T", Worksheet.mk [[.jstr "old"]])])
          "T" ["A"]) "T" ["B"]
      = get_or_create_worksheet (Spreadsheet.mk [("T", Worksheet.mk [[.jstr "old"]])])
          "T" ["A"])
    ∧ get_or_create_worksheet (Spreadsheet.mk [("T", Worksheet.mk [[.jstr "old"]])])
        "T" ["A"]
      = Spreadsheet.mk [("T", Worksheet.mk [[.jstr "old"]])] :=
  ⟨(C3_ensure_tab_idempotent (Spreadsheet.mk [("T", Worksheet.mk [[.jstr "old"]])])
      "T" ["A"] ["B"]).1,
   (C3_ensure_tab_idempotent (Spreadsheet.mk [("T", Worksheet.mk [[.jstr "old"]])])
      "T" ["A"] ["B"]).2 (Worksheet.mk [[.jstr "old"]]) rfl⟩

/-- C5: for every API endpoint, every request and every behaviour of the
backend: the response is HTTP 500 with success false and error equal to e
precisely when the handler body raised the exception e (so any raised error
text surfaces verbatim), and a 200 success precisely when no exception was
raised; moreover a failure with text e injected at any backend call
position of any endpoint (all five calls of the inquiry and estimate
handlers — including both mirror calls —, all three of the list/add
handlers, both unconditional and, with all three keys present, all five
calls of the job update, and all four of setup) yields exactly
the 500 response with that raw text: no retry or local recovery happens
anywhere. -/
theorem C5_error_policy (sched : Sched) (data : PyDict) (now today : String) (R : Nat)
    (ss : Spreadsheet) :
    (respExact (save_inquiry sched data now today ss)
        (save_inquiry_core sched data now today ss)
     ∧ respExact (get_inquiries sched ss) (get_inquiries_core sched ss)
     ∧ respExact (save_estimate sched data today ss) (save_estimate_core sched data today ss)
     ∧ respExact (get_jobs sched ss) (get_jobs_core sched ss)
     ∧ respExact (add_job sched data today ss) (add_job_core sched data today ss)
     ∧ respExact (update_job sched data R ss) (update_job_core sched data R ss)
     ∧ respExact (setup_sheets sched ss) (setup_sheets_core sched ss))
    ∧ ((∀ e jt, pyJoinCommaSpace (dictGet data "jobTypes" (.jarr [])) = .ok jt →
          ∀ k, k < 5 →
          (save_inquiry (injectAt k e) data now today ss).2 = ⟨500, false, some e⟩)
      ∧ (∀ e k, k < 3 → (get_inquiries (injectAt k e) ss).2 = ⟨500, false, some e⟩)
      ∧ (∀ e prep furniture ladder tools,
          pyDictGetVal (dictGet data "conditions" (.jobj [])) "prep" (.jstr "")
            = .ok prep →
          pyDictGetVal (dictGet data "conditions" (.jobj [])) "furniture" (.jstr "")
            = .ok furniture →
          pyDictGetVal (dictGet data "conditions" (.jobj [])) "ladder" (.jstr "")
            = .ok ladder →
          pyJoinCommaSpace (dictGet data "tools" (.jarr [])) = .ok tools →
          ∀ k, k < 5 →
          (save_estimate (injectAt k e) data today ss).2 = ⟨500, false, some e⟩)
      ∧ (∀ e k, k < 3 → (get_jobs (injectAt k e) ss).2 = ⟨500, false, some e⟩)
      ∧ (∀ e k, k < 3 → (add_job (injectAt k e) data today ss).2 = ⟨500, false, some e⟩)
      ∧ (∀ e k, k < 2 → (update_job (injectAt k e) data R ss).2 = ⟨500, false, some e⟩)
      ∧ (∀ e v1 v2 v3, dictFind data "status" = some v1 →
          dictFind data "scheduledDate" = some v2 → dictFind data "notes" = some v3 →
          ∀ k, k < 5 → (update_job (injectAt k e) data R ss).2 = ⟨500, false, some e⟩)
      ∧ (∀ e k, k < 4 → (setup_sheets (injectAt k e) ss).2 = ⟨500, false, some e⟩)) := by
  refine ⟨⟨wrapRoute_respExact _, wrapRoute_respExact _, wrapRoute_respExact _,
      wrapRoute_respExact _, wrapRoute_respExact _, wrapRoute_respExact _,
      wrapRoute_respExact _⟩,
    ?_, ?_, ?_, ?_, ?_, ?_, ?_, ?_⟩
  · intro e jt hjt k hk
    interval_cases k <;>
      simp [save_inquiry, save_inquiry_core, append_to_joblist_run, callExc, injectAt,
        andThen, wrapRoute, hjt]
  · intro e k hk
    interval_cases k <;>
      simp [get_inquiries, get_inquiries_core, callExc, injectAt, andThen, wrapRoute]
  · intro e prep furniture ladder tools h1 h2 h3 h4 k hk
    interval_cases k <;>
      simp [save_estimate, save_estimate_core, append_to_joblist_run, callExc, injectAt,
        andThen, wrapRoute, h1, h2, h3, h4]
  · intro e k hk
    interval_cases k <;>
      simp [get_jobs, get_jobs_core, callExc, injectAt, andThen, wrapRoute]
  · intro e k hk
    interval_cases k <;>
      simp [add_job, add_job_core, callExc, injectAt, andThen, wrapRoute]
  · intro e k hk
    interval_cases k <;>
      simp [update_job, update_job_core, callExc, injectAt, andThen, wrapRoute]
  · intro e v1 v2 v3 hv1 hv2 hv3 k hk
    interval_cases k <;>
      simp [update_job, update_job_core, callExc, injectAt, andThen, wrapRoute,
        hv1, hv2, hv3]
  · intro e k hk
    interval_cases k <;>
      simp [setup_sheets, setup_sheets_core, callExc, injectAt, andThen, wrapRoute]

theorem C5_witness :
    respExact
      (save_inquiry noFail [("status", .jstr "Scheduled"), ("notes", .jstr "n")]
        "ts" "01/01/2026" emptySS)
      (save_inquiry_core noFail [("status", .jstr "Scheduled"), ("notes", .jstr "n")]
        "ts" "01/01/2026" emptySS)
    ∧ (save_inquiry (injectAt 4 "boom") [("status", .jstr "Scheduled"), ("notes", .jstr "n")]
        "ts" "01/01/2026" emptySS).2 = ⟨500, false, some "boom"⟩
    ∧ (save_estimate (injectAt 4 "boom") [("status", .jstr "Scheduled"), ("notes", .jstr "n")]
        "01/01/2026" emptySS).2 = ⟨500, false, some "boom"⟩
    ∧ (update_job (injectAt 1 "boom") [("status", .jstr "Scheduled"), ("notes", .jstr "n")]
        3 emptySS).2 = ⟨500, false, some "boom"⟩
    ∧ (setup_sheets (injectAt 3 "boom") emptySS).2 = ⟨500, false, some "boom"⟩ :=
  ⟨(C5_error_policy noFail [("status", .jstr "Scheduled"), ("notes", .jstr "n")]
      "ts" "01/01/2026" 3 emptySS).1.1,
   (C5_error_policy noFail [("status", .jstr "Scheduled"), ("notes", .jstr "n")]
      "ts" "01/01/2026" 3 emptySS).2.1 "boom" "" rfl 4 (by omega),
   (C5_error_policy noFail [("status", .jstr "Scheduled"), ("notes", .jstr "n")]
      "ts" "01/01/2026" 3 emptySS).2.2.2.1 "boom" (.jstr "") (.jstr "") (.jstr "") ""
      rfl rfl rfl rfl 4 (by omega),
   (C5_error_policy noFail [("status", .jstr "Scheduled"), ("notes", .jstr "n")]
      "ts" "01/01/2026" 3 emptySS).2.2.2.2.2.2.1 "boom" 1 (by omega),
   (C5_error_policy noFail [("status", .jstr "Scheduled"), ("notes", .jstr "n")]
      "ts" "01/01/2026" 3 emptySS).2.2.2.2.2.2.2.2 "boom" 3 (by omega)⟩

/-- C9: a PUT `/api/job/<R>` whose body contains none of the keys status,
scheduledDate, notes writes no cell of the pipeline tab — the spreadsheet is
returned unchanged — and still reports success. -/
theorem C9_update_job_no_keys_noop (data : PyDict) (R : Nat) (ss : Spreadsheet)
    (ws : Worksheet) (hex : ss.findTab TAB_PIPELINE = some ws)
    (h1 : dictFind data "status" = none)
    (h2 : dictFind data "scheduledDate" = none)
    (h3 : dictFind data "notes" = none) :
    (update_job noFail data R ss).1 = ss
    ∧ (update_job noFail data R ss).2 = ⟨200, true, none⟩ := by
  have he := get_or_create_of_found ss TAB_PIPELINE PIPELINE_HEADERS ws hex
  rw [update_job]
  simp [update_job_core, callExc, noFail, andThen, h1, h2, h3, he, wrapRoute]

theorem C9_witness :
    (update_job noFail [("other", .jstr "x")] 3
        (Spreadsheet.mk [(TAB_PIPELINE, Worksheet.mk [[.jstr "h"]])])).1
      = Spreadsheet.mk [(TAB_PIPELINE, Worksheet.mk [[.jstr "h"]])]
    ∧ (update_job noFail [("other", .jstr "x")] 3
        (Spreadsheet.mk [(TAB_PIPELINE, Worksheet.mk [[.jstr "h"]])])).2
      = ⟨200, true, none⟩ :=
  C9_update_job_no_keys_noop [("other", .jstr "x")] 3
    (Spreadsheet.mk [(TAB_PIPELINE, Worksheet.mk [[.jstr "h"]])])
    (Worksheet.mk [[.jstr "h"]]) rfl rfl rfl rfl

/-- C8 counterexample: the claim says every unset field defaults to the
empty string, but an estimate submitted with an empty body yields a row
whose Total Hours column (column 6) is the number 0, not the empty string
(`data.get("totalHours", 0)` in the source). -/
theorem C8_counterexample :
    (save_estimate noFail [] "01/01/2026" emptySS).1.cellOf TAB_ESTIMATES 2 6 = .jnum 0
    ∧ JsonVal.jnum 0 ≠ .jstr "" := by
  constructor
  · rfl
  · intro h
    exact nomatch h

/-- C8 amended: every appended row is positionally aligned to its tab's
fixed header order (same length, fields in header order), and an unset
field defaults to the empty string except the documented non-empty
defaults: the timestamp/date columns default to the current time,
inquiry status defaults to "New", pipeline status defaults to "New Lead",
the estimate's Total Hours / Labor Days / Estimated Value columns default
to the number 0, and the Joblist's Date Added / Last Updated columns
default to today. -/
theorem C8_amended_positional_rows (data : PyDict) (now today : String)
    (prep furniture ladder : JsonVal) (jt tools : String) (k : JoblistKwargs) :
    ((inquiryRowOf data now jt).length = INQUIRY_HEADERS.length
     ∧ (estimateRowOf data today prep furniture ladder tools).length
         = ESTIMATE_HEADERS.length
     ∧ (addJobRowOf data today).length = PIPELINE_HEADERS.length
     ∧ (joblistRow k today).length = JOBLIST_HEADERS.length)
    ∧ inquiryRowOf [] now jt
        = [.jstr now, .jstr "", .jstr "", .jstr "", .jstr "", .jstr jt,
           .jstr "", .jstr "", .jstr "", .jstr "", .jstr "New"]
    ∧ estimateRowOf [] today prep furniture ladder tools
        = [.jstr today, .jstr "", .jstr "", .jstr "", .jstr "", .jnum 0, .jnum 0,
           .jnum 0, prep, furniture, ladder, .jstr "", .jstr tools, .jstr ""]
    ∧ addJobRowOf [] today
        = [.jstr today, .jstr "", .jstr "", .jstr "", .jstr "", .jstr "", .jstr "",
           .jstr "New Lead", .jstr "", .jstr "", .jstr ""]
    ∧ joblistRow {} today
        = [.jstr "", .jstr "", .jstr "", .jstr "", .jstr "", .jstr "", .jstr "",
           .jstr "", .jstr "", .jstr "", .jstr "", .jstr "", .jstr "",
           .jstr today, .jstr today, .jstr "", .jstr "", .jstr "", .jstr "",
           .jstr "", .jstr ""] :=
  ⟨⟨rfl, rfl, rfl, rfl⟩, rfl, rfl, rfl, rfl⟩

/-- C7 counterexample: after a successful POST `/api/setup` on an empty
spreadsheet, the Joblist tab — a tab the system writes to, as the very next
inquiry submission shows by creating and appending to it — does not exist,
so setup does not create every tab the system writes to. -/
theorem C7_counterexample :
    (setup_sheets noFail emptySS).2.success = true
    ∧ (setup_sheets noFail emptySS).1.findTab TAB_JOBLIST = none
    ∧ ((save_inquiry noFail [] "ts" "01/01/2026"
          (setup_sheets noFail emptySS).1).1.findTab TAB_JOBLIST).isSome = true := by
  exact ⟨rfl, rfl, rfl⟩

/-- C7 amended: POST `/api/setup` idempotently creates the three tabs
Customer Inquiries, Detailed Estimates and Job Pipeline Master with their
header rows (repeating the call changes nothing and creates no further
tab), but it does not create the Joblist tab, which is instead created
lazily by the mirroring writes. -/
theorem C7_amended_setup (ss : Spreadsheet) :
    (setup_sheets noFail ss).2 = ⟨200, true, none⟩
    ∧ (∃ w1, (setup_sheets noFail ss).1.findTab TAB_INQUIRIES = some w1)
    ∧ (∃ w2, (setup_sheets noFail ss).1.findTab TAB_ESTIMATES = some w2)
    ∧ (∃ w3, (setup_sheets noFail ss).1.findTab TAB_PIPELINE = some w3)
    ∧ (ss.findTab TAB_INQUIRIES = none →
        (setup_sheets noFail ss).1.findTab TAB_INQUIRIES
          = some ⟨[INQUIRY_HEADERS.map .jstr]⟩)
    ∧ (ss.findTab TAB_ESTIMATES = none →
        (setup_sheets noFail ss).1.findTab TAB_ESTIMATES
          = some ⟨[ESTIMATE_HEADERS.map .jstr]⟩)
    ∧ (ss.findTab TAB_PIPELINE = none →
        (setup_sheets noFail ss).1.findTab TAB_PIPELINE
          = some ⟨[PIPELINE_HEADERS.map .jstr]⟩)
    ∧ (setup_sheets noFail ((setup_sheets noFail ss).1)).1 = (setup_sheets noFail ss).1
    ∧ (setup_sheets noFail ss).1.findTab TAB_JOBLIST = ss.findTab TAB_JOBLIST := by
  have hne1 := tabs_distinct.2.2.2.1
  have hne2 := tabs_distinct.2.2.2.2.1
  have hne3 := tabs_distinct.2.2.2.2.2
  have hj1 := tabs_distinct.1
  have hj2 := tabs_distinct.2.1
  have hj3 := tabs_distinct.2.2.1
  have hfinal : (setup_sheets noFail ss).1 =
      get_or_create_worksheet
        (get_or_create_worksheet (get_or_create_worksheet ss TAB_INQUIRIES INQUIRY_HEADERS)
          TAB_ESTIMATES ESTIMATE_HEADERS)
        TAB_PIPELINE PIPELINE_HEADERS := by
    simp [setup_sheets, setup_sheets_core, callExc, noFail, andThen, wrapRoute]
  have hin : ∃ w1, (setup_sheets noFail ss).1.findTab TAB_INQUIRIES = some w1 := by
    rw [hfinal, findTab_get_or_create_ne _ _ _ _ hne2,
      findTab_get_or_create_ne _ _ _ _ hne1]
    exact ⟨_, findTab_get_or_create_self ss TAB_INQUIRIES INQUIRY_HEADERS⟩
  have hes : ∃ w2, (setup_sheets noFail ss).1.findTab TAB_ESTIMATES = some w2 := by
    rw [hfinal, findTab_get_or_create_ne _ _ _ _ hne3]
    exact ⟨_, findTab_get_or_create_self _ TAB_ESTIMATES ESTIMATE_HEADERS⟩
  have hpi : ∃ w3, (setup_sheets noFail ss).1.findTab TAB_PIPELINE = some w3 := by
    rw [hfinal]
    exact ⟨_, findTab_get_or_create_self _ TAB_PIPELINE PIPELINE_HEADERS⟩
  refine ⟨?_, hin, hes, hpi, ?_, ?_, ?_, ?_, ?_⟩
  · simp [setup_sheets, setup_sheets_core, callExc, noFail, andThen, wrapRoute]
  · intro hn
    rw [hfinal, findTab_get_or_create_ne _ _ _ _ hne2,
      findTab_get_or_create_ne _ _ _ _ hne1, findTab_get_or_create_self, hn]
    rfl
  · intro hn
    rw [hfinal, findTab_get_or_create_ne _ _ _ _ hne3,
      findTab_get_or_create_self, findTab_get_or_create_ne _ _ _ _ (Ne.symm hne1), hn]
    rfl
  · intro hn
    rw [hfinal, findTab_get_or_create_self,
      findTab_get_or_create_ne _ _ _ _ (Ne.symm hne3),
      findTab_get_or_create_ne _ _ _ _ (Ne.symm hne2), hn]
    rfl
  · obtain ⟨w1, hw1⟩ := hin
    obtain ⟨w2, hw2⟩ := hes
    obtain ⟨w3, hw3⟩ := hpi
    have h2 : (setup_sheets noFail ((setup_sheets noFail ss).1)).1 =
        get_or_create_worksheet
          (get_or_create_worksheet
            (get_or_create_worksheet (setup_sheets noFail ss).1
              TAB_INQUIRIES INQUIRY_HEADERS)
            TAB_ESTIMATES ESTIMATE_HEADERS)
          TAB_PIPELINE PIPELINE_HEADERS := by
      simp [setup_sheets, setup_sheets_core, callExc, noFail, andThen, wrapRoute]
    rw [h2, get_or_create_of_found _ _ _ w1 hw1, get_or_create_of_found _ _ _ w2 hw2,
      get_or_create_of_found _ _ _ w3 hw3]
  · rw [hfinal, findTab_get_or_create_ne _ _ _ _ hj3,
      findTab_get_or_create_ne _ _ _ _ hj2, findTab_get_or_create_ne _ _ _ _ hj1]

theorem C7_witness :
    (setup_sheets noFail emptySS).2 = ⟨200, true, none⟩
    ∧ (∃ w1, (setup_sheets noFail emptySS).1.findTab TAB_INQUIRIES = some w1)
    ∧ (∃ w2, (setup_sheets noFail emptySS).1.findTab TAB_ESTIMATES = some w2)
    ∧ (∃ w3, (setup_sheets noFail emptySS).1.findTab TAB_PIPELINE = some w3)
    ∧ (emptySS.findTab TAB_INQUIRIES = none →
        (setup_sheets noFail emptySS).1.findTab TAB_INQUIRIES
          = some ⟨[INQUIRY_HEADERS.map .jstr]⟩)
    ∧ (emptySS.findTab TAB_ESTIMATES = none →
        (setup_sheets noFail emptySS).1.findTab TAB_ESTIMATES
          = some ⟨[ESTIMATE_HEADERS.map .jstr]⟩)
    ∧ (emptySS.findTab TAB_PIPELINE = none →
        (setup_sheets noFail emptySS).1.findTab TAB_PIPELINE
          = some ⟨[PIPELINE_HEADERS.map .jstr]⟩)
    ∧ (setup_sheets noFail ((setup_sheets noFail emptySS).1)).1
        = (setup_sheets noFail emptySS).1
    ∧ (setup_sheets noFail emptySS).1.findTab TAB_JOBLIST = emptySS.findTab TAB_JOBLIST :=
  C7_amended_setup emptySS

/-- C2: a valid inquiry POST appends exactly one row to the Customer
Inquiries tab, positionally aligned to the inquiry header order (`inquiryRowOf`
lists the cells in header order and has the headers' length), with omitted
optional fields rendered as the empty string except status (default "New")
and timestamp (default the current time), and with the jobTypes list joined
into one comma-separated string; the request succeeds. -/
theorem C2_inquiry_append (data : PyDict) (jts : List String) (now today : String)
    (ss : Spreadsheet)
    (hjt : dictGet data "jobTypes" (.jarr []) = .jarr (jts.map .jstr)) :
    ∃ pre : Worksheet,
      (get_or_create_worksheet ss TAB_INQUIRIES INQUIRY_HEADERS).findTab TAB_INQUIRIES
        = some pre
      ∧ (save_inquiry noFail data now today ss).1.findTab TAB_INQUIRIES
          = some ⟨pre.rows ++ [inquiryRowOf data now (String.intercalate ", " jts)]⟩
      ∧ (inquiryRowOf data now (String.intercalate ", " jts)).length
          = INQUIRY_HEADERS.length
      ∧ (save_inquiry noFail data now today ss).2 = ⟨200, true, none⟩ := by
  have hjoin : pyJoinCommaSpace (dictGet data "jobTypes" (.jarr []))
      = .ok (String.intercalate ", " jts) := by
    rw [hjt]
    exact pyJoin_map_jstr jts
  have hshape := save_inquiry_core_noFail data now today ss _ hjoin
  refine ⟨(ss.findTab TAB_INQUIRIES).getD ⟨[INQUIRY_HEADERS.map .jstr]⟩,
    findTab_get_or_create_self ss TAB_INQUIRIES INQUIRY_HEADERS, ?_, rfl, ?_⟩
  · have hfinal : (save_inquiry noFail data now today ss).1 =
        appendRowTo
          (get_or_create_worksheet
            (appendRowTo (get_or_create_worksheet ss TAB_INQUIRIES INQUIRY_HEADERS)
              TAB_INQUIRIES (inquiryRowOf data now (String.intercalate ", " jts)))
            TAB_JOBLIST JOBLIST_HEADERS)
          TAB_JOBLIST
          (joblistRow (inquiryMirrorKwargs data (String.intercalate ", " jts)) today) := by
      rw [save_inquiry, hshape]
      rfl
    rw [hfinal, findTab_appendRowTo_ne _ _ _ _ (Ne.symm tabs_distinct.1),
      findTab_get_or_create_ne _ _ _ _ (Ne.symm tabs_distinct.1)]
    exact findTab_appendRowTo_self _ _ _ _
      (findTab_get_or_create_self ss TAB_INQUIRIES INQUIRY_HEADERS)
  · rw [save_inquiry, hshape]
    rfl

theorem C2_witness :
    ∃ pre : Worksheet,
      (get_or_create_worksheet emptySS TAB_INQUIRIES INQUIRY_HEADERS).findTab TAB_INQUIRIES
        = some pre
      ∧ (save_inquiry noFail
            [("customerName", .jstr "J. Doe"), ("phone", .jstr "555-1212"),
             ("address", .jstr "12 Elm St"), ("jobTypes", .jarr [.jstr "Interior"])]
            "2026-01-01T00:00:00" "01/01/2026" emptySS).1.findTab TAB_INQUIRIES
          = some ⟨pre.rows ++
              [inquiryRowOf
                [("customerName", .jstr "J. Doe"), ("phone", .jstr "555-1212"),
                 ("address", .jstr "12 Elm St"), ("jobTypes", .jarr [.jstr "Interior"])]
                "2026-01-01T00:00:00" (String.intercalate ", " ["Interior"])]⟩
      ∧ (inquiryRowOf
            [("customerName", .jstr "J. Doe"), ("phone", .jstr "555-1212"),
             ("address", .jstr "12 Elm St"), ("jobTypes", .jarr [.jstr "Interior"])]
            "2026-01-01T00:00:00" (String.intercalate ", " ["Interior"])).length
          = INQUIRY_HEADERS.length
      ∧ (save_inquiry noFail
            [("customerName", .jstr "J. Doe"), ("phone", .jstr "555-1212"),
             ("address", .jstr "12 Elm St"), ("jobTypes", .jarr [.jstr "Interior"])]
            "2026-01-01T00:00:00" "01/01/2026" emptySS).2 = ⟨200, true, none⟩ :=
  C2_inquiry_append
    [("customerName", .jstr "J. Doe"), ("phone", .jstr "555-1212"),
     ("address", .jstr "12 Elm St"), ("jobTypes", .jarr [.jstr "Interior"])]
    ["Interior"] "2026-01-01T00:00:00" "01/01/2026" emptySS rfl

/-- C10: the Joblist row mirrored from an inquiry submission has its Labor
Days column (column 5) and Estimated Value column (column 18) equal to the
empty string — the inquiry mirroring path passes no labor-days value, so no
estimated value is computed. -/
theorem C10_inquiry_mirror_blank (data : PyDict) (now today : String) (ss : Spreadsheet)
    (hok : (save_inquiry noFail data now today ss).2.success = true) :
    ∃ ws : Worksheet,
      (save_inquiry noFail data now today ss).1.findTab TAB_JOBLIST = some ws
      ∧ ws.rows ≠ []
      ∧ (ws.rows.getLastD []).getD 4 .jnull = .jstr ""
      ∧ (ws.rows.getLastD []).getD 17 .jnull = .jstr "" := by
  obtain ⟨jt, hjt⟩ := save_inquiry_success_join data now today ss hok
  have hshape := save_inquiry_core_noFail data now today ss jt hjt
  have hfinal : (save_inquiry noFail data now today ss).1 =
      appendRowTo
        (get_or_create_worksheet
          (appendRowTo (get_or_create_worksheet ss TAB_INQUIRIES INQUIRY_HEADERS)
            TAB_INQUIRIES (inquiryRowOf data now jt))
          TAB_JOBLIST JOBLIST_HEADERS)
        TAB_JOBLIST (joblistRow (inquiryMirrorKwargs data jt) today) := by
    rw [save_inquiry, hshape]
    rfl
  refine ⟨⟨(((appendRowTo (get_or_create_worksheet ss TAB_INQUIRIES INQUIRY_HEADERS)
        TAB_INQUIRIES (inquiryRowOf data now jt)).findTab TAB_JOBLIST).getD
          ⟨[JOBLIST_HEADERS.map .jstr]⟩).rows
      ++ [joblistRow (inquiryMirrorKwargs data jt) today]⟩, ?_, ?_, ?_, ?_⟩
  · rw [hfinal]
    exact findTab_appendRowTo_self _ _ _ _ (findTab_get_or_create_self _ _ _)
  · simp
  · rw [List.getLastD_concat]
    rfl
  · rw [List.getLastD_concat]
    rfl

theorem C10_witness :
    ∃ ws : Worksheet,
      (save_inquiry noFail [("address", .jstr "12 Elm St")] "ts" "01/01/2026"
          emptySS).1.findTab TAB_JOBLIST = some ws
      ∧ ws.rows ≠ []
      ∧ (ws.rows.getLastD []).getD 4 .jnull = .jstr ""
      ∧ (ws.rows.getLastD []).getD 17 .jnull = .jstr "" :=
  C10_inquiry_mirror_blank [("address", .jstr "12 Elm St")] "ts" "01/01/2026" emptySS rfl

/-- C1 counterexample: an estimate whose laborDays field is the JSON number
0 — which parses as the number d = 0 — yields a mirrored Joblist row whose
Estimated Value column (column 18) is the empty string, not d * 560 = 0:
the source guards the multiplication behind Python truthiness of
labor_days, and the number 0 is falsy. -/
theorem C1_counterexample :
    (save_estimate noFail [("laborDays", .jnum 0)] "01/01/2026" emptySS).1.cellOf
        TAB_JOBLIST 2 18 = .jstr ""
    ∧ JsonVal.jstr "" ≠ .jnum (0 * LABOR_RATE) := by
  constructor
  · rfl
  · intro h
    exact nomatch h

/-- C1 amended: the Estimated Value column of the Joblist row mirrored from
an estimate submission equals `estValueOf laborDays`, which is d * 560 when
laborDays is a nonzero JSON number d or a string that parses as a float d,
and the empty string when laborDays is absent, is the JSON number 0
(Python-falsy), or is a value `float()` rejects. -/
theorem C1_amended_estimate_value (data : PyDict) (today : String) (ss : Spreadsheet)
    (hok : (save_estimate noFail data today ss).2.success = true) :
    ∃ ws : Worksheet,
      (save_estimate noFail data today ss).1.findTab TAB_JOBLIST = some ws
      ∧ ws.rows ≠ []
      ∧ (ws.rows.getLastD []).getD 17 .jnull
          = estValueOf (dictGet data "laborDays" (.jnum 0))
      ∧ (∀ d : ℚ, dictGet data "laborDays" (.jnum 0) = .jnum d → d ≠ 0 →
          estValueOf (dictGet data "laborDays" (.jnum 0)) = .jnum (d * LABOR_RATE))
      ∧ (dictGet data "laborDays" (.jnum 0) = .jnum 0 →
          estValueOf (dictGet data "laborDays" (.jnum 0)) = .jstr "")
      ∧ (∀ s d, dictGet data "laborDays" (.jnum 0) = .jstr s →
          parseFloatString s = some d →
          estValueOf (dictGet data "laborDays" (.jnum 0)) = .jnum (d * LABOR_RATE))
      ∧ (pyFloat (dictGet data "laborDays" (.jnum 0)) = none →
          estValueOf (dictGet data "laborDays" (.jnum 0)) = .jstr "") := by
  obtain ⟨prep, furniture, ladder, tools, h1, h2, h3, h4⟩ :=
    save_estimate_success_parts data today ss hok
  have hshape := save_estimate_core_noFail data today ss prep furniture ladder tools
    h1 h2 h3 h4
  have hfinal : (save_estimate noFail data today ss).1 =
      appendRowTo
        (get_or_create_worksheet
          (appendRowTo (get_or_create_worksheet ss TAB_ESTIMATES ESTIMATE_HEADERS)
            TAB_ESTIMATES (estimateRowOf data today prep furniture ladder tools))
          TAB_JOBLIST JOBLIST_HEADERS)
        TAB_JOBLIST (joblistRow (estimateMirrorKwargs data) today) := by
    rw [save_estimate, hshape]
    rfl
  refine ⟨⟨(((appendRowTo (get_or_create_worksheet ss TAB_ESTIMATES ESTIMATE_HEADERS)
        TAB_ESTIMATES (estimateRowOf data today prep furniture ladder tools)).findTab
          TAB_JOBLIST).getD ⟨[JOBLIST_HEADERS.map .jstr]⟩).rows
      ++ [joblistRow (estimateMirrorKwargs data) today]⟩, ?_, ?_, ?_, ?_, ?_, ?_, ?_⟩
  · rw [hfinal]
    exact findTab_appendRowTo_self _ _ _ _ (findTab_get_or_create_self _ _ _)
  · simp
  · rw [List.getLastD_concat]
    rfl
  · intro d hd hdne
    rw [hd]
    exact estValueOf_jnum_ne d hdne
  · intro hd
    rw [hd]
    exact estValueOf_jnum_zero
  · intro s d hs hp
    rw [hs]
    exact estValueOf_jstr_some s d hp
  · intro hn
    exact estValueOf_pyFloat_none _ hn

theorem C1_witness :
    ((save_estimate noFail [("laborDays", .jnum 5)] "01/01/2026" emptySS).2.success = true)
    ∧ (∃ ws : Worksheet,
        (save_estimate noFail [("laborDays", .jnum 5)] "01/01/2026"
            emptySS).1.findTab TAB_JOBLIST = some ws
        ∧ ws.rows ≠ []
        ∧ (ws.rows.getLastD []).getD 17 .jnull
            = estValueOf (dictGet [("laborDays", .jnum 5)] "laborDays" (.jnum 0))
        ∧ (∀ d : ℚ, dictGet [("laborDays", .jnum 5)] "laborDays" (.jnum 0) = .jnum d →
            d ≠ 0 →
            estValueOf (dictGet [("laborDays", .jnum 5)] "laborDays" (.jnum 0))
              = .jnum (d * LABOR_RATE))
        ∧ (dictGet [("laborDays", .jnum 5)] "laborDays" (.jnum 0) = .jnum 0 →
            estValueOf (dictGet [("laborDays", .jnum 5)] "laborDays" (.jnum 0)) = .jstr "")
        ∧ (∀ s d, dictGet [("laborDays", .jnum 5)] "laborDays" (.jnum 0) = .jstr s →
            parseFloatString s = some d →
            estValueOf (dictGet [("laborDays", .jnum 5)] "laborDays" (.jnum 0))
              = .jnum (d * LABOR_RATE))
        ∧ (pyFloat (dictGet [("laborDays", .jnum 5)] "laborDays" (.jnum 0)) = none →
            estValueOf (dictGet [("laborDays", .jnum 5)] "laborDays" (.jnum 0))
              = .jstr "")) :=
  ⟨rfl, C1_amended_estimate_value [("laborDays", .jnum 5)] "01/01/2026" emptySS rfl⟩

theorem wrapRoute_fst (x : RunSt × Except String Unit) : (wrapRoute x).1 = x.1.ss := by
  obtain ⟨st, r⟩ := x
  cases r <;> rfl

theorem wrapRoute_snd_ok (x : RunSt × Except String Unit) (h : x.2 = .ok ()) :
    (wrapRoute x).2 = ⟨200, true, none⟩ := by
  obtain ⟨st, r⟩ := x
  cases r with
  | ok u => rfl
  | error e => exact absurd h (by simp)

/-- C4: PUT `/api/job/R` writes exactly the fields present in the request
body to the fixed columns of row R (status to column 8, scheduledDate to
column 9, notes to column 11); every other cell of the pipeline tab — in
particular the status column of rows R-1 and R+1 and all other columns of
row R — is unchanged, no other tab is touched, and the request succeeds. -/
theorem C4_update_job_frame (data : PyDict) (R : Nat) (ss : Spreadsheet) (ws : Worksheet)
    (hex : ss.findTab TAB_PIPELINE = some ws) (hR : 2 ≤ R) :
    (∀ r c, 1 ≤ r → 1 ≤ c →
      ¬(r = R ∧ ((c = 8 ∧ (dictFind data "status").isSome)
               ∨ (c = 9 ∧ (dictFind data "scheduledDate").isSome)
               ∨ (c = 11 ∧ (dictFind data "notes").isSome))) →
      (update_job noFail data R ss).1.cellOf TAB_PIPELINE r c
        = ss.cellOf TAB_PIPELINE r c)
    ∧ (∀ v, dictFind data "status" = some v →
        (update_job noFail data R ss).1.cellOf TAB_PIPELINE R 8 = v)
    ∧ (∀ v, dictFind data "scheduledDate" = some v →
        (update_job noFail data R ss).1.cellOf TAB_PIPELINE R 9 = v)
    ∧ (∀ v, dictFind data "notes" = some v →
        (update_job noFail data R ss).1.cellOf TAB_PIPELINE R 11 = v)
    ∧ (∀ t, t ≠ TAB_PIPELINE →
        (update_job noFail data R ss).1.findTab t = ss.findTab t)
    ∧ (update_job noFail data R ss).2 = ⟨200, true, none⟩ := by
  have hbase := get_or_create_of_found ss TAB_PIPELINE PIPELINE_HEADERS ws hex
  have hcore := (update_job_core_noFail data R ss).1
  rw [hbase] at hcore
  have hfin : (update_job noFail data R ss).1 =
      updOpt (updOpt (updOpt ss R 8 (dictFind data "status"))
        R 9 (dictFind data "scheduledDate")) R 11 (dictFind data "notes") := by
    rw [update_job, wrapRoute_fst, hcore]
  obtain ⟨wsA, hA⟩ := findTab_updOpt_isSome ss R 8 (dictFind data "status") ws hex
  obtain ⟨wsB, hB⟩ :=
    findTab_updOpt_isSome _ R 9 (dictFind data "scheduledDate") wsA hA
  refine ⟨?_, ?_, ?_, ?_, ?_, ?_⟩
  · intro r c hr hc hne
    have e11 : (dictFind data "notes").isSome → ¬(r = R ∧ c = 11) :=
      fun hsm hrc => hne ⟨hrc.1, Or.inr (Or.inr ⟨hrc.2, hsm⟩)⟩
    have e9 : (dictFind data "scheduledDate").isSome → ¬(r = R ∧ c = 9) :=
      fun hsm hrc => hne ⟨hrc.1, Or.inr (Or.inl ⟨hrc.2, hsm⟩)⟩
    have e8 : (dictFind data "status").isSome → ¬(r = R ∧ c = 8) :=
      fun hsm hrc => hne ⟨hrc.1, Or.inl ⟨hrc.2, hsm⟩⟩
    rw [hfin,
      cellOf_updOpt_skip _ R 11 r c _ (by omega) (by omega) hr hc e11,
      cellOf_updOpt_skip _ R 9 r c _ (by omega) (by omega) hr hc e9,
      cellOf_updOpt_skip _ R 8 r c _ (by omega) (by omega) hr hc e8]
  · intro v hv
    rw [hfin, hv,
      cellOf_updOpt_skip _ R 11 R 8 _ (by omega) (by omega) (by omega) (by omega)
        (fun _ hrc => by omega),
      cellOf_updOpt_skip _ R 9 R 8 _ (by omega) (by omega) (by omega) (by omega)
        (fun _ hrc => by omega)]
    exact cellOf_updateCellAt_self ss TAB_PIPELINE R 8 v ws hex (by omega) (by omega)
  · intro v hv
    rw [hfin, hv,
      cellOf_updOpt_skip _ R 11 R 9 _ (by omega) (by omega) (by omega) (by omega)
        (fun _ hrc => by omega)]
    exact cellOf_updateCellAt_self _ TAB_PIPELINE R 9 v wsA hA (by omega) (by omega)
  · intro v hv
    rw [hfin, hv]
    exact cellOf_updateCellAt_self _ TAB_PIPELINE R 11 v wsB hB (by omega) (by omega)
  · intro t ht
    rw [hfin, findTab_updOpt_ne_tab _ _ _ _ _ ht, findTab_updOpt_ne_tab _ _ _ _ _ ht,
      findTab_updOpt_ne_tab _ _ _ _ _ ht]
  · rw [update_job]
    exact wrapRoute_snd_ok _ (update_job_core_noFail data R ss).2

theorem C4_witness :
    (∀ r c, 1 ≤ r → 1 ≤ c →
      ¬(r = 3 ∧ ((c = 8 ∧ (dictFind [("notes", .jstr "called back")] "status").isSome)
               ∨ (c = 9 ∧ (dictFind [("notes", .jstr "called back")] "scheduledDate").isSome)
               ∨ (c = 11 ∧ (dictFind [("notes", .jstr "called back")] "notes").isSome))) →
      (update_job noFail [("notes", .jstr "called back")] 3
          (Spreadsheet.mk [(TAB_PIPELINE, Worksheet.mk [[.jstr "h"]])])).1.cellOf
          TAB_PIPELINE r c
        = (Spreadsheet.mk [(TAB_PIPELINE, Worksheet.mk [[.jstr "h"]])]).cellOf
            TAB_PIPELINE r c)
    ∧ (∀ v, dictFind [("notes", .jstr "called back")] "status" = some v →
        (update_job noFail [("notes", .jstr "called back")] 3
            (Spreadsheet.mk [(TAB_PIPELINE, Worksheet.mk [[.jstr "h"]])])).1.cellOf
            TAB_PIPELINE 3 8 = v)
    ∧ (∀ v, dictFind [("notes", .jstr "called back")] "scheduledDate" = some v →
        (update_job noFail [("notes", .jstr "called back")] 3
            (Spreadsheet.mk [(TAB_PIPELINE, Worksheet.mk [[.jstr "h"]])])).1.cellOf
            TAB_PIPELINE 3 9 = v)
    ∧ (∀ v, dictFind [("notes", .jstr "called back")] "notes" = some v →
        (update_job noFail [("notes", .jstr "called back")] 3
            (Spreadsheet.mk [(TAB_PIPELINE, Worksheet.mk [[.jstr "h"]])])).1.cellOf
            TAB_PIPELINE 3 11 = v)
    ∧ (∀ t, t ≠ TAB_PIPELINE →
        (update_job noFail [("notes", .jstr "called back")] 3
            (Spreadsheet.mk [(TAB_PIPELINE, Worksheet.mk [[.jstr "h"]])])).1.findTab t
          = (Spreadsheet.mk [(TAB_PIPELINE, Worksheet.mk [[.jstr "h"]])]).findTab t)
    ∧ (update_job noFail [("notes", .jstr "called back")] 3
        (Spreadsheet.mk [(TAB_PIPELINE, Worksheet.mk [[.jstr "h"]])])).2
        = ⟨200, true, none⟩ :=
  C4_update_job_frame [("notes", .jstr "called back")] 3
    (Spreadsheet.mk [(TAB_PIPELINE, Worksheet.mk [[.jstr "h"]])])
    (Worksheet.mk [[.jstr "h"]]) rfl (by omega)

/-- C6: the primary append and the Joblist mirror append are not atomic —
when the mirror append (backend call 4) raises after the primary append
succeeded, the request is reported as HTTP 500 with the raised text, yet
the primary tab holds exactly the same appended row as in a fully
successful run (no rollback), while the Joblist tab is missing the mirror
row that the successful run appends, so the two tabs diverge.  This holds
for both the inquiry and the estimate endpoint. -/
theorem C6_mirror_not_atomic (data : PyDict) (now today : String) (ss : Spreadsheet)
    (e : String)
    (hok1 : (save_inquiry noFail data now today ss).2.success = true)
    (hok2 : (save_estimate noFail data today ss).2.success = true) :
    ((save_inquiry (injectAt 4 e) data now today ss).2 = ⟨500, false, some e⟩
     ∧ (save_inquiry (injectAt 4 e) data now today ss).1.findTab TAB_INQUIRIES
         = (save_inquiry noFail data now today ss).1.findTab TAB_INQUIRIES
     ∧ (∃ wsJ mrow,
         (save_inquiry (injectAt 4 e) data now today ss).1.findTab TAB_JOBLIST
           = some wsJ
         ∧ (save_inquiry noFail data now today ss).1.findTab TAB_JOBLIST
             = some ⟨wsJ.rows ++ [mrow]⟩))
    ∧ ((save_estimate (injectAt 4 e) data today ss).2 = ⟨500, false, some e⟩
     ∧ (save_estimate (injectAt 4 e) data today ss).1.findTab TAB_ESTIMATES
         = (save_estimate noFail data today ss).1.findTab TAB_ESTIMATES
     ∧ (∃ wsJ mrow,
         (save_estimate (injectAt 4 e) data today ss).1.findTab TAB_JOBLIST = some wsJ
         ∧ (save_estimate noFail data today ss).1.findTab TAB_JOBLIST
             = some ⟨wsJ.rows ++ [mrow]⟩)) := by
  obtain ⟨jt, hjt⟩ := save_inquiry_success_join data now today ss hok1
  obtain ⟨prep, furniture, ladder, tools, h1, h2, h3, h4⟩ :=
    save_estimate_success_parts data today ss hok2
  have hshape1 := save_inquiry_core_noFail data now today ss jt hjt
  have hshape1i := save_inquiry_core_inject4 data now today ss jt e hjt
  have hshape2 := save_estimate_core_noFail data today ss prep furniture ladder tools
    h1 h2 h3 h4
  have hshape2i := save_estimate_core_inject4 data today ss prep furniture ladder tools e
    h1 h2 h3 h4
  have hfin1 : (save_inquiry noFail data now today ss).1 =
      appendRowTo
        (get_or_create_worksheet
          (appendRowTo (get_or_create_worksheet ss TAB_INQUIRIES INQUIRY_HEADERS)
            TAB_INQUIRIES (inquiryRowOf data now jt))
          TAB_JOBLIST JOBLIST_HEADERS)
        TAB_JOBLIST (joblistRow (inquiryMirrorKwargs data jt) today) := by
    rw [save_inquiry, wrapRoute_fst, hshape1]
  have hfin1i : (save_inquiry (injectAt 4 e) data now today ss).1 =
      get_or_create_worksheet
        (appendRowTo (get_or_create_worksheet ss TAB_INQUIRIES INQUIRY_HEADERS)
          TAB_INQUIRIES (inquiryRowOf data now jt))
        TAB_JOBLIST JOBLIST_HEADERS := by
    rw [save_inquiry, wrapRoute_fst, hshape1i]
  have hfin2 : (save_estimate noFail data today ss).1 =
      appendRowTo
        (get_or_create_worksheet
          (appendRowTo (get_or_create_worksheet ss TAB_ESTIMATES ESTIMATE_HEADERS)
            TAB_ESTIMATES (estimateRowOf data today prep furniture ladder tools))
          TAB_JOBLIST JOBLIST_HEADERS)
        TAB_JOBLIST (joblistRow (estimateMirrorKwargs data) today) := by
    rw [save_estimate, wrapRoute_fst, hshape2]
  have hfin2i : (save_estimate (injectAt 4 e) data today ss).1 =
      get_or_create_worksheet
        (appendRowTo (get_or_create_worksheet ss TAB_ESTIMATES ESTIMATE_HEADERS)
          TAB_ESTIMATES (estimateRowOf data today prep furniture ladder tools))
        TAB_JOBLIST JOBLIST_HEADERS := by
    rw [save_estimate, wrapRoute_fst, hshape2i]
  refine ⟨⟨?_, ?_, ?_⟩, ?_, ?_, ?_⟩
  · rw [save_inquiry, hshape1i]
    rfl
  · rw [hfin1, hfin1i, findTab_appendRowTo_ne _ _ _ _ (Ne.symm tabs_distinct.1)]
  · refine ⟨(((appendRowTo (get_or_create_worksheet ss TAB_INQUIRIES INQUIRY_HEADERS)
        TAB_INQUIRIES (inquiryRowOf data now jt)).findTab TAB_JOBLIST).getD
          ⟨[JOBLIST_HEADERS.map .jstr]⟩),
      joblistRow (inquiryMirrorKwargs data jt) today, ?_, ?_⟩
    · rw [hfin1i]
      exact findTab_get_or_create_self _ TAB_JOBLIST JOBLIST_HEADERS
    · rw [hfin1]
      exact findTab_appendRowTo_self _ _ _ _
        (findTab_get_or_create_self _ TAB_JOBLIST JOBLIST_HEADERS)
  · rw [save_estimate, hshape2i]
    rfl
  · rw [hfin2, hfin2i, findTab_appendRowTo_ne _ _ _ _ (Ne.symm tabs_distinct.2.1)]
  · refine ⟨(((appendRowTo (get_or_create_worksheet ss TAB_ESTIMATES ESTIMATE_HEADERS)
        TAB_ESTIMATES (estimateRowOf data today prep furniture ladder tools)).findTab
          TAB_JOBLIST).getD ⟨[JOBLIST_HEADERS.map .jstr]⟩),
      joblistRow (estimateMirrorKwargs data) today, ?_, ?_⟩
    · rw [hfin2i]
      exact findTab_get_or_create_self _ TAB_JOBLIST JOBLIST_HEADERS
    · rw [hfin2]
      exact findTab_appendRowTo_self _ _ _ _
        (findTab_get_or_create_self _ TAB_JOBLIST JOBLIST_HEADERS)

theorem C6_witness :
    ((save_inquiry (injectAt 4 "quota exceeded") [("address", .jstr "12 Elm St")]
        "ts" "01/01/2026" emptySS).2 = ⟨500, false, some "quota exceeded"⟩
     ∧ (save_inquiry (injectAt 4 "quota exceeded") [("address", .jstr "12 Elm St")]
          "ts" "01/01/2026" emptySS).1.findTab TAB_INQUIRIES
         = (save_inquiry noFail [("address", .jstr "12 Elm St")]
              "ts" "01/01/2026" emptySS).1.findTab TAB_INQUIRIES
     ∧ (∃ wsJ mrow,
         (save_inquiry (injectAt 4 "quota exceeded") [("address", .jstr "12 Elm St")]
             "ts" "01/01/2026" emptySS).1.findTab TAB_JOBLIST = some wsJ
         ∧ (save_inquiry noFail [("address", .jstr "12 Elm St")]
              "ts" "01/01/2026" emptySS).1.findTab TAB_JOBLIST
             = some ⟨wsJ.rows ++ [mrow]⟩))
    ∧ ((save_estimate (injectAt 4 "quota exceeded") [("address", .jstr "12 Elm St")]
          "01/01/2026" emptySS).2 = ⟨500, false, some "quota exceeded"⟩
     ∧ (save_estimate (injectAt 4 "quota exceeded") [("address", .jstr "12 Elm St")]
          "01/01/2026" emptySS).1.findTab TAB_ESTIMATES
         = (save_estimate noFail [("address", .jstr "12 Elm St")]
              "01/01/2026" emptySS).1.findTab TAB_ESTIMATES
     ∧ (∃ wsJ mrow,
         (save_estimate (injectAt 4 "quota exceeded") [("address", .jstr "12 Elm St")]
             "01/01/2026" emptySS).1.findTab TAB_JOBLIST = some wsJ
         ∧ (save_estimate noFail [("address", .jstr "12 Elm St")]
              "01/01/2026" emptySS).1.findTab TAB_JOBLIST
             = some ⟨wsJ.rows ++ [mrow]⟩)) :=
  C6_mirror_not_atomic [("address", .jstr "12 Elm St")] "ts" "01/01/2026" emptySS
    "quota exceeded" rfl rfl
